import Mathlib

/-!
Verification of the run/instance resolution and ephemeral execution core of
`airflow/cli/commands/task_command.py`: `_generate_temporary_run_id`,
`_get_dag_run`, `_get_ti` and `task_test`, shallowly embedded as pure
state-passing functions over explicit store and process state.

Instants are modelled as microsecond counts (`Nat`); external library pieces
that are not part of the excerpt (identifier resolution, the store's atomic
get-or-create, `TaskInstance.refresh_from_task`) are modelled from the spec
and marked as such in their doc comments.
-/

namespace TaskCommand

/-- An instant in time, counted in microseconds (the resolution of the
ISO-8601 rendering used by `timezone.utcnow().isoformat()`). -/
abbrev Instant := Nat

/-- A data interval: start and end instants. -/
abbrev Interval := Instant × Instant

/-- The `DagRunState` enum (`airflow.utils.state.DagRunState`). -/
inductive DagRunState where
  | queued
  | running
  | success
  | failed
deriving DecidableEq, Repr

/-- The `TaskInstanceState` values used here (`airflow.utils.state.State`). -/
inductive TIState where
  | queued
  | running
  | success
  | failed
deriving DecidableEq, Repr

/-- The `DagRunType` enum values used here. -/
inductive DagRunType where
  | manual
  | scheduled
deriving DecidableEq, Repr

/-- The `DagRunTriggeredByType` enum values used here. -/
inductive DagRunTriggeredByType where
  | cli
  | ui
deriving DecidableEq, Repr

/-- A `DagRun` record: one execution of a workflow.  Fields are the ones the
excerpt constructs and reads (`dag_id`, `run_id`, `run_type`, `logical_date`,
`data_interval`, `run_after`, `triggered_by`, `triggering_user_name`,
`state`).  `run_id` is an `Option` because the in-memory creation path passes
the raw CLI value through, which may be absent. -/
structure DagRun where
  dag_id : String
  run_id : Option String
  run_type : DagRunType
  logical_date : Option Instant
  data_interval : Option Interval
  run_after : Instant
  triggered_by : DagRunTriggeredByType
  triggering_user_name : Option String
  state : DagRunState
deriving DecidableEq, Repr

/-- A `DAG` as used by the excerpt: an id, the set of task ids in `task_dict`,
and the timetable's `infer_manual_data_interval`. -/
structure DAG where
  dag_id : String
  task_dict : List String
  infer_manual_data_interval : Instant → Interval

/-- An `Operator` (task definition) as used by the excerpt: `task_id`,
`get_needs_expansion()`, the owning `dag` (optional), and `params`. -/
structure Operator where
  task_id : String
  needs_expansion : Bool
  dag : Option DAG
  params : List (String × String)

/-- A `TaskInstance` record for one (run, task, map-index) triple.  `task` is
the bound task-definition reference (re-set by `refresh_from_task`),
`dag_run` the owning-run reference set on creation. -/
structure TaskInstance where
  dag_id : String
  run_id : Option String
  task_id : String
  map_index : Int
  dag_version_id : Nat
  task : Option Operator
  pool : Option String
  dag_run : Option DagRun
  state : Option TIState

/-- The durable store visible to the excerpt: run records, task-instance
records, and the latest serialized version per dag
(`DagVersion.get_latest_version`). -/
structure Store where
  runs : List DagRun
  tis : List TaskInstance
  dag_versions : List (String × Nat)

/-- The error taxonomy of the excerpt: Python exception classes raised or
propagated by the functions under study. -/
inductive Err where
  | valueError (msg : String)
  | dagRunNotFound (msg : String)
  | taskInstanceNotFound (msg : String)
  | runtimeError (msg : String)
  | validationError (msg : String)
  | taskFailure (msg : String)
  | importError (msg : String)
deriving DecidableEq, Repr

/-- The `create_if_necessary` values: `False`, `"db"`, `"memory"`. -/
inductive CreateIfNecessary where
  | off
  | db
  | memory
deriving DecidableEq, Repr

/-- Python truthiness of an optional string (`None` and `""` are falsy). -/
def truthy : Option String → Bool
  | none => false
  | some s => !s.isEmpty

/-- Python truthiness of an optional key/value mapping (`None` and an empty
mapping are falsy). -/
def truthyMap : Option (List (String × String)) → Bool
  | none => false
  | some kvs => !kvs.isEmpty

/-- Python `dict.__setitem__` on an association-list model of a dict. -/
def dictSet (e : List (String × String)) (k v : String) : List (String × String) :=
  if e.any (fun p => p.1 = k) then
    e.map (fun p => if p.1 = k then (k, v) else p)
  else
    e ++ [(k, v)]

/-- Python `dict.update` on an association-list model of a dict. -/
def dictUpdate (e kvs : List (String × String)) : List (String × String) :=
  kvs.foldl (fun acc kv => dictSet acc kv.1 kv.2) e

/-- The ambient effects the excerpt consumes: timestamp parsing, ISO-8601
rendering, the current instant, `getuser()` (already collapsed through the
`AirflowConfigException` handler: `none` models a swallowed failure), the
parameter-set validator, and the debugger hook resolution/entry
(`_guess_debugger` + `set_trace`). -/
structure Env where
  parse : String → Option Instant
  iso : Instant → String
  now : Instant
  getuser : Option String
  params_validate : List (String × String) → Except String Unit
  debugger : Except Err Unit

/-- Function `_generate_temporary_run_id`: fixed prefixed/suffixed rendering of the
current instant.  The ISO-8601 rendering is supplied by the environment. -/
def _generate_temporary_run_id (iso : Instant → String) (now : Instant) : String :=
  "__airflow_temporary_run_" ++ iso now ++ "__"

/-- Find a run of `dag_id` by `run_id` in the store. -/
def findRunById (runs : List DagRun) (dag_id run_id : String) : Option DagRun :=
  runs.find? (fun r => r.dag_id = dag_id ∧ r.run_id = some run_id)

/-- Find a run of `dag_id` by logical date in the store. -/
def findRunByLogicalDate (runs : List DagRun) (dag_id : String) (d : Instant) : Option DagRun :=
  runs.find? (fun r => r.dag_id = dag_id ∧ r.logical_date = some d)

/-- Modelled from the spec: `fetch_dag_run_from_run_id_or_logical_date_string`
(in `airflow.cli.utils`, not part of the excerpt).  Given a raw string,
attempt in order: (a) treat it as an existing run identifier and query the
store; (b) treat it as a parseable instant and query the store for a run
whose logical instant equals it.  Returns the matching run and/or the parsed
instant (the instant may be returned even without a match, to seed
creation); no match and no parse returns an empty result, no error. -/
def fetch_dag_run_from_run_id_or_logical_date_string
    (parse : String → Option Instant) (runs : List DagRun)
    (dag_id value : String) : Option DagRun × Option Instant :=
  match findRunById runs dag_id value with
  | some r => (some r, r.logical_date)
  | none =>
    match parse value with
    | none => (none, none)
    | some d => (findRunByLogicalDate runs dag_id d, some d)

/-- Modelled from the spec: `_get_or_create_dagrun` (in
`airflow.models.dag`, not part of the excerpt) asks the store to atomically
get-or-create the run for its workflow and run identifier: if a run with the
same (dag_id, run_id) key exists it is returned, otherwise the supplied
record is inserted and returned.  The spec leaves the stored initial state to
the store; the record passed in carries it. -/
def _get_or_create_dagrun (runs : List DagRun) (run : DagRun) : DagRun × List DagRun :=
  match findRunById runs run.dag_id (run.run_id.getD "") with
  | some r => (r, runs)
  | none => (run, run :: runs)

/-- Function `_get_dag_run`: resolve a string (run id or logical date) to a run, or
create one according to `create_if_necessary`.  Returns the (result ×
updated run store); errors leave the store unchanged. -/
def _get_dag_run (env : Env) (dag : DAG) (create_if_necessary : CreateIfNecessary)
    (logical_date_or_run_id : Option String) (runs : List DagRun) :
    Except Err (DagRun × Bool) × List DagRun :=
  if ¬ truthy logical_date_or_run_id ∧ create_if_necessary = .off then
    (.error (.valueError "Must provide `logical_date_or_run_id` if not `create_if_necessary`."), runs)
  else
    let fetched : Option DagRun × Option Instant :=
      if truthy logical_date_or_run_id then
        fetch_dag_run_from_run_id_or_logical_date_string env.parse runs dag.dag_id
          (logical_date_or_run_id.getD "")
      else (none, none)
    match fetched.1 with
    | some dag_run => (.ok (dag_run, false), runs)
    | none =>
      if truthy logical_date_or_run_id ∧ create_if_necessary = .off then
        (.error (.dagRunNotFound ("DagRun for " ++ dag.dag_id ++
          " with run_id or logical_date of " ++ (logical_date_or_run_id.getD "") ++
          " not found")), runs)
      else
        let logical_date := fetched.2
        let dag_run_logical_date := logical_date
        let data_interval : Option Interval :=
          match dag_run_logical_date with
          | some d => some (dag.infer_manual_data_interval d)
          | none => none
        let run_after : Instant :=
          match data_interval with
          | some i => i.2
          | none => env.now
        let user := env.getuser
        match create_if_necessary with
        | .memory =>
          let dag_run : DagRun :=
            { dag_id := dag.dag_id
              run_id := logical_date_or_run_id
              run_type := .manual
              logical_date := dag_run_logical_date
              data_interval := data_interval
              run_after := run_after
              triggered_by := .cli
              triggering_user_name := user
              state := .running }
          (.ok (dag_run, true), runs)
        | .db =>
          let fresh : DagRun :=
            { dag_id := dag.dag_id
              run_id := some (_generate_temporary_run_id env.iso env.now)
              run_type := .manual
              logical_date := dag_run_logical_date
              data_interval := data_interval
              run_after := run_after
              triggered_by := .cli
              triggering_user_name := user
              state := .queued }
          let created := _get_or_create_dagrun runs fresh
          (.ok (created.1, true), created.2)
        | .off =>
          (.error (.valueError "unknown create_if_necessary value"), runs)

/-- Modelled from the spec: `TaskInstance.refresh_from_task` (not part of
the excerpt) re-binds the instance's task reference to the supplied task
definition and applies the pool override when given. -/
def refresh_from_task (ti : TaskInstance) (task : Operator) (pool_override : Option String) :
    TaskInstance :=
  { ti with task := some task, pool := pool_override <|> ti.pool }

/-- The (run, task, map-index) key of a task-instance record, as used by
`dag_run.get_task_instance`. -/
def tiKey (ti : TaskInstance) : String × Option String × String × Int :=
  (ti.dag_id, ti.run_id, ti.task_id, ti.map_index)

/-- Lookup `dag_run.get_task_instance(task_id, map_index)`: the stored record for
this run's (task, map-index), if any. -/
def get_task_instance (tis : List TaskInstance) (dag_id : String) (run_id : Option String)
    (task_id : String) (map_index : Int) : Option TaskInstance :=
  tis.find? (fun t => t.dag_id = dag_id ∧ t.run_id = run_id ∧
    t.task_id = task_id ∧ t.map_index = map_index)

/-- Lookup `DagVersion.get_latest_version(dag_id)`. -/
def get_latest_version (dag_versions : List (String × Nat)) (dag_id : String) : Option Nat :=
  (dag_versions.find? (fun p => p.1 = dag_id)).map Prod.snd

/-- The record built by `TaskInstance(task, run_id=..., map_index=...,
dag_version_id=...)` followed by `ti.dag_run = dag_run`: the constructor
binds the supplied task definition. -/
def newTaskInstance (dag : DAG) (task : Operator) (dag_run : DagRun)
    (map_index : Int) (v : Nat) : TaskInstance :=
  { dag_id := dag.dag_id
    run_id := dag_run.run_id
    task_id := task.task_id
    map_index := map_index
    dag_version_id := v
    task := some task
    pool := none
    dag_run := some dag_run
    state := none }

/-- Function `_get_ti`: bind a task definition to its task-instance record for a
resolved run, creating the record when allowed.  Returns ((task instance,
run-created flag) × updated store); errors leave the store unchanged. -/
def _get_ti (env : Env) (task : Operator) (map_index : Int)
    (logical_date_or_run_id : Option String) (pool : Option String)
    (create_if_necessary : CreateIfNecessary) (store : Store) :
    Except Err (TaskInstance × Bool) × Store :=
  match task.dag with
  | none => (.error (.valueError "Cannot get task instance for a task not assigned to a DAG"), store)
  | some dag =>
    if task.task_id ∉ dag.task_dict then
      (.error (.valueError ("Provided task " ++ task.task_id ++ " is not in dag " ++
        dag.dag_id ++ ".")), store)
    else if ¬ truthy logical_date_or_run_id ∧ create_if_necessary = .off then
      (.error (.valueError "Must provide `logical_date_or_run_id` if not `create_if_necessary`."), store)
    else if task.needs_expansion ∧ map_index < 0 then
      (.error (.runtimeError "No map_index passed to mapped task"), store)
    else if ¬ task.needs_expansion ∧ map_index ≥ 0 then
      (.error (.runtimeError "map_index passed to non-mapped task"), store)
    else
      match _get_dag_run env dag create_if_necessary logical_date_or_run_id store.runs with
      | (.error e, runs1) => (.error e, { store with runs := runs1 })
      | (.ok (dag_run, dr_created), runs1) =>
        let store1 : Store := { store with runs := runs1 }
        match get_task_instance store1.tis dag.dag_id dag_run.run_id task.task_id map_index with
        | none =>
          if create_if_necessary = .off then
            (.error (.taskInstanceNotFound ("TaskInstance for " ++ dag.dag_id ++ ", " ++
              task.task_id ++ " with run_id or logical_date of " ++
              (logical_date_or_run_id.getD "") ++ " not found")), store1)
          else
            match get_latest_version store1.dag_versions dag.dag_id with
            | none =>
              (.error (.valueError ("Cannot create TaskInstance for " ++ dag.dag_id ++
                " because the Dag is not serialized.")), store1)
            | some v =>
              let ti0 : TaskInstance := newTaskInstance dag task dag_run map_index v
              let ti := refresh_from_task (refresh_from_task ti0 task pool) task pool
              let store2 : Store :=
                if dag_run ∈ store1.runs then { store1 with tis := ti :: store1.tis }
                else store1
              (.ok (ti, dr_created), store2)
        | some ti0 =>
          let ti := refresh_from_task (refresh_from_task ti0 task pool) task pool
          let store2 : Store :=
            { store1 with tis := store1.tis.map (fun t => if tiKey t = tiKey ti0 then ti else t) }
          (.ok (ti, dr_created), store2)

/-- Process-wide mutable state touched by `task_test`: the process
environment, `settings.MASK_SECRETS_IN_LOGS`, and the `airflow.task` logger's
propagate flag and stream-handler presence. -/
structure ProcState where
  environ : List (String × String)
  mask_secrets_in_logs : Bool
  task_logger_propagate : Bool
  task_logger_has_stream_handler : Bool
deriving DecidableEq, Repr

/-- CLI arguments consumed by `task_test` (with `env_vars` and
`task_params` already parsed into key/value mappings). -/
structure TaskTestArgs where
  map_index : Int
  logical_date_or_run_id : Option String
  env_vars : Option (List (String × String))
  task_params : Option (List (String × String))
  post_mortem : Bool

/-- Deletion `session.delete(dag_run)`: remove the row with this run's primary key
from the store. -/
def deleteRun (runs : List DagRun) (r : DagRun) : List DagRun :=
  runs.filter (fun x => ¬ (x.dag_id = r.dag_id ∧ x.run_id = r.run_id))

/-- Function `task_test`: the ephemeral test execution.  `body` models
`_run_task(ti=ti, run_triggerer=True)`: it either raises an opaque task
failure or completes leaving the instance in a final state.  Returns the
(outcome × process state × store); the `finally` block (propagate
restoration and transient-run deletion) runs on every exit path of the `try`
block.  The model starts after `dag.get_task(args.task_id)`: it receives the
task definition directly and reaches the dag through `task.dag`. -/
def task_test (env : Env) (task : Operator) (args : TaskTestArgs)
    (body : TaskInstance → Except String (Option TIState))
    (proc : ProcState) (store : Store) :
    Except Err Unit × ProcState × Store :=
  let proc := { proc with mask_secrets_in_logs := true }
  let already_has_stream_handler := proc.task_logger_has_stream_handler
  let proc :=
    if ¬ already_has_stream_handler then { proc with task_logger_propagate := true } else proc
  let env_vars : List (String × String) := [("AIRFLOW_TEST_MODE", "True")]
  let step3 : List (String × String) × ProcState :=
    if truthyMap args.env_vars then
      let merged := dictUpdate env_vars (args.env_vars.getD [])
      (merged, { proc with environ := dictUpdate proc.environ merged })
    else (env_vars, proc)
  let proc := step3.2
  let task :=
    if truthyMap args.task_params then
      { task with params := dictUpdate task.params (args.task_params.getD []) }
    else task
  match (if ¬ task.params.isEmpty then env.params_validate task.params else .ok ()) with
  | .error msg => (.error (.validationError msg), proc, store)
  | .ok _ =>
    match _get_ti env task args.map_index args.logical_date_or_run_id none .db store with
    | (.error e, store1) => (.error e, proc, store1)
    | (.ok (ti, dr_created), store1) =>
      let body_result : Except Err Unit :=
        match body ti with
        | .error msg => .error (.taskFailure msg)
        | .ok final_state =>
          if final_state = some .failed ∧ args.post_mortem then env.debugger
          else .ok ()
      let proc :=
        if ¬ already_has_stream_handler then { proc with task_logger_propagate := false }
        else proc
      let store2 :=
        if dr_created then
          match ti.dag_run with
          | some r => { store1 with runs := deleteRun store1.runs r }
          | none => store1
        else store1
      (body_result, proc, store2)

/-! ## Concrete fixtures used by the witnesses -/

/-- A concrete one-task dag. -/
def dag0 : DAG :=
  { dag_id := "d", task_dict := ["t"], infer_manual_data_interval := fun d => (d, d + 1) }

/-- A concrete non-mapped task of `dag0`. -/
def task0 : Operator :=
  { task_id := "t", needs_expansion := false, dag := some dag0, params := [] }

/-- A concrete expansion-capable (mapped) task of `dag0`. -/
def task0m : Operator :=
  { task_id := "t", needs_expansion := true, dag := some dag0, params := [] }

/-- A concrete environment: nothing parses as a date, instants render as their
decimal microsecond count, the clock reads 5, validation passes. -/
def env0 : Env :=
  { parse := fun _ => none, iso := fun t => toString t, now := 5, getuser := some "u",
    params_validate := fun _ => .ok (), debugger := .ok () }

/-- A concrete pre-existing run of `dag0`. -/
def run0 : DagRun :=
  { dag_id := "d", run_id := some "r1", run_type := .manual, logical_date := some 3,
    data_interval := some (3, 4), run_after := 4, triggered_by := .cli,
    triggering_user_name := none, state := .running }

/-- An empty store that knows a serialized version of `dag0`. -/
def store0 : Store := { runs := [], tis := [], dag_versions := [("d", 1)] }

/-- A store holding `run0` and a serialized version of `dag0`. -/
def store1 : Store := { runs := [run0], tis := [], dag_versions := [("d", 1)] }

/-- A concrete process state with an empty environment and no stream handler. -/
def proc0 : ProcState :=
  { environ := [], mask_secrets_in_logs := false, task_logger_propagate := false,
    task_logger_has_stream_handler := false }

/-- Concrete `task_test` arguments: non-mapped call with no identifier and no
overrides. -/
def args0 : TaskTestArgs :=
  { map_index := -1, logical_date_or_run_id := none, env_vars := none,
    task_params := none, post_mortem := false }

/-! ## Helper lemmas -/

/-- Wrapping distinct middles between a fixed prefix and suffix keeps them
distinct. -/
theorem append_middle_inj (p q a b : String) (h : p ++ a ++ q = p ++ b ++ q) : a = b := by
  have hd : p.data ++ a.data ++ q.data = p.data ++ b.data ++ q.data := by
    have h2 := congrArg String.data h
    simpa [String.data_append] using h2
  exact String.ext (by simpa using hd)

/-- A run returned by the identifier resolver is a member of the store. -/
theorem fetch_mem (parse : String → Option Instant) (runs : List DagRun)
    (dag_id value : String) (r : DagRun)
    (h : (fetch_dag_run_from_run_id_or_logical_date_string parse runs dag_id value).1 = some r) :
    r ∈ runs := by
  unfold fetch_dag_run_from_run_id_or_logical_date_string at h
  rcases h1 : findRunById runs dag_id value with _ | r1
  · rw [h1] at h
    rcases h2 : parse value with _ | d
    · rw [h2] at h; simp at h
    · rw [h2] at h
      simp only at h
      exact List.mem_of_find?_eq_some h
  · rw [h1] at h
    simp only at h
    cases h
    exact List.mem_of_find?_eq_some h1

/-- Resolution equation for `_get_dag_run` when the identifier resolves to an
existing run: the run is returned pre-existing and the store untouched. -/
theorem get_dag_run_found_eq
    (env : Env) (dag : DAG) (cin : CreateIfNecessary) (ldri : Option String)
    (runs : List DagRun) (run : DagRun)
    (hv : truthy ldri = true)
    (hfetch : (fetch_dag_run_from_run_id_or_logical_date_string env.parse runs dag.dag_id
      (ldri.getD "")).1 = some run) :
    _get_dag_run env dag cin ldri runs = (.ok (run, false), runs) := by
  unfold _get_dag_run
  simp [hv, hfetch]

/-- Applying `refresh_from_task` twice at fixed task and pool override equals applying it once. -/
theorem refresh_from_task_idem (ti : TaskInstance) (task : Operator) (pool : Option String) :
    refresh_from_task (refresh_from_task ti task pool) task pool =
      refresh_from_task ti task pool := by
  cases pool <;> simp [refresh_from_task, Option.orElse]

/-- Path equation for `_get_ti` when all guards pass, run resolution
succeeds, and no task-instance record exists yet: a record is created, bound
and (when the run is session-tracked) stored. -/
theorem get_ti_create_eq
    (env : Env) (task : Operator) (dag : DAG) (mi : Int) (ldri : Option String)
    (pool : Option String) (cin : CreateIfNecessary) (store : Store)
    (run : DagRun) (created : Bool) (runs1 : List DagRun) (v : Nat)
    (hdag : task.dag = some dag)
    (htask : task.task_id ∈ dag.task_dict)
    (hpre : ¬ (truthy ldri = false ∧ cin = .off))
    (hg1 : ¬ (task.needs_expansion = true ∧ mi < 0))
    (hg2 : ¬ (task.needs_expansion = false ∧ 0 ≤ mi))
    (hrun : _get_dag_run env dag cin ldri store.runs = (.ok (run, created), runs1))
    (hti : get_task_instance store.tis dag.dag_id run.run_id task.task_id mi = none)
    (hoff : ¬ cin = .off)
    (hversion : get_latest_version store.dag_versions dag.dag_id = some v)
    (hmem : run ∈ runs1) :
    _get_ti env task mi ldri pool cin store =
      (.ok (refresh_from_task
          (refresh_from_task (newTaskInstance dag task run mi v) task pool) task pool, created),
       { store with
          runs := runs1,
          tis := refresh_from_task
            (refresh_from_task (newTaskInstance dag task run mi v) task pool) task pool
            :: store.tis }) := by
  unfold _get_ti
  rw [hdag]
  dsimp only
  rw [if_neg (not_not_intro htask)]
  rw [if_neg (fun hc => hpre ⟨by simpa using hc.1, hc.2⟩)]
  rw [if_neg hg1]
  rw [if_neg (fun hc => hg2 ⟨by simpa using hc.1, hc.2⟩)]
  rw [hrun]
  dsimp only
  rw [hti]
  dsimp only
  rw [if_neg hoff, hversion]
  dsimp only
  rw [if_pos hmem]

/-- Path equation for `_get_ti` when all guards pass, run resolution
succeeds, and a task-instance record already exists: the record is found,
re-bound to the supplied task and updated in place. -/
theorem get_ti_found_eq
    (env : Env) (task : Operator) (dag : DAG) (mi : Int) (ldri : Option String)
    (pool : Option String) (cin : CreateIfNecessary) (store : Store)
    (run : DagRun) (created : Bool) (runs1 : List DagRun) (ti0 : TaskInstance)
    (hdag : task.dag = some dag)
    (htask : task.task_id ∈ dag.task_dict)
    (hpre : ¬ (truthy ldri = false ∧ cin = .off))
    (hg1 : ¬ (task.needs_expansion = true ∧ mi < 0))
    (hg2 : ¬ (task.needs_expansion = false ∧ 0 ≤ mi))
    (hrun : _get_dag_run env dag cin ldri store.runs = (.ok (run, created), runs1))
    (hti : get_task_instance store.tis dag.dag_id run.run_id task.task_id mi = some ti0) :
    _get_ti env task mi ldri pool cin store =
      (.ok (refresh_from_task (refresh_from_task ti0 task pool) task pool, created),
       { store with
          runs := runs1,
          tis := store.tis.map (fun t => if tiKey t = tiKey ti0
            then refresh_from_task (refresh_from_task ti0 task pool) task pool else t) }) := by
  unfold _get_ti
  rw [hdag]
  dsimp only
  rw [if_neg (not_not_intro htask)]
  rw [if_neg (fun hc => hpre ⟨by simpa using hc.1, hc.2⟩)]
  rw [if_neg hg1]
  rw [if_neg (fun hc => hg2 ⟨by simpa using hc.1, hc.2⟩)]
  rw [hrun]
  dsimp only
  rw [hti]

/-- Creation equation for `_get_dag_run` in `db` mode with no identifier:
a run named by the generated temporary identifier is inserted (when that
identifier is fresh) with the current instant as `run_after`. -/
theorem get_dag_run_db_create_eq
    (env : Env) (dag : DAG) (runs : List DagRun)
    (hfresh : findRunById runs dag.dag_id (_generate_temporary_run_id env.iso env.now) = none) :
    _get_dag_run env dag .db none runs =
      (.ok ({ dag_id := dag.dag_id,
              run_id := some (_generate_temporary_run_id env.iso env.now),
              run_type := .manual, logical_date := none, data_interval := none,
              run_after := env.now, triggered_by := .cli,
              triggering_user_name := env.getuser, state := .queued }, true),
       { dag_id := dag.dag_id,
         run_id := some (_generate_temporary_run_id env.iso env.now),
         run_type := .manual, logical_date := none, data_interval := none,
         run_after := env.now, triggered_by := .cli,
         triggering_user_name := env.getuser, state := .queued } :: runs) := by
  unfold _get_dag_run _get_or_create_dagrun
  simp [truthy, hfresh]

/-- Deleting a freshly inserted run whose identifier matches nothing else in
the store removes exactly that run. -/
theorem deleteRun_cons_fresh (runs : List DagRun) (r : DagRun) (g : String)
    (hg : r.run_id = some g)
    (h : findRunById runs r.dag_id g = none) :
    deleteRun (r :: runs) r = runs := by
  unfold deleteRun
  rw [List.filter_cons]
  rw [if_neg (by simp)]
  refine List.filter_eq_self.mpr (fun x hx => ?_)
  have hnot := List.find?_eq_none.mp h x hx
  simp only [decide_eq_true_eq, not_and] at hnot
  simp only [decide_eq_true_eq]
  rw [hg]
  exact fun hc => hnot hc.1 hc.2

/-! ## Claims -/

/-- C6: every generated temporary run identifier is the literal prefix
`__airflow_temporary_run_`, then the current instant rendered by the ISO-8601
renderer, then the literal suffix `__`; and when the rendering is injective
(as ISO-8601 is at microsecond resolution), invocations at instants differing
by at least one microsecond produce distinct identifiers. -/
theorem generate_temporary_run_id_format_and_unique
    (iso : Instant → String) (hinj : Function.Injective iso)
    (t₁ t₂ : Instant) (hne : t₁ ≠ t₂) :
    _generate_temporary_run_id iso t₁ = "__airflow_temporary_run_" ++ iso t₁ ++ "__" ∧
    _generate_temporary_run_id iso t₁ ≠ _generate_temporary_run_id iso t₂ := by
  refine ⟨rfl, fun h => hne (hinj (append_middle_inj _ _ _ _ h))⟩

/-- Witness for C6 at a concrete injective rendering and the instants 0 and 1. -/
theorem generate_temporary_run_id_format_and_unique_witness :
    _generate_temporary_run_id (fun t => String.mk (List.replicate t 'x')) 0 =
      "__airflow_temporary_run_" ++ String.mk (List.replicate 0 'x') ++ "__" ∧
    _generate_temporary_run_id (fun t => String.mk (List.replicate t 'x')) 0 ≠
      _generate_temporary_run_id (fun t => String.mk (List.replicate t 'x')) 1 :=
  generate_temporary_run_id_format_and_unique (fun t => String.mk (List.replicate t 'x'))
    (fun a b h => by simpa using congrArg (fun s => s.data.length) h)
    0 1 (by decide)

/-- C2: an identifier resolving to an existing run is returned with
`created=false` under every creation mode, and the run store is left
unchanged. -/
theorem get_dag_run_existing_run_no_mutation
    (env : Env) (dag : DAG) (cin : CreateIfNecessary) (ldri : Option String)
    (runs : List DagRun) (run : DagRun)
    (hv : truthy ldri = true)
    (hfetch : (fetch_dag_run_from_run_id_or_logical_date_string env.parse runs dag.dag_id
      (ldri.getD "")).1 = some run) :
    _get_dag_run env dag cin ldri runs = (.ok (run, false), runs) := by
  unfold _get_dag_run
  simp [hv, hfetch]

/-- Witness for C2: `"r1"` resolves to `run0` in `store1` and is returned
unchanged with `created=false`. -/
theorem get_dag_run_existing_run_no_mutation_witness :
    _get_dag_run env0 dag0 .off (some "r1") store1.runs = (.ok (run0, false), store1.runs) :=
  get_dag_run_existing_run_no_mutation env0 dag0 .off (some "r1") store1.runs run0
    (by decide) (by decide)

/-- C8: an empty identifier (absent or blank) with creation disabled fails
with `ValueError` in `_get_dag_run`, and `_get_ti` raises the same
precondition failure before resolving anything; neither mutates the store. -/
theorem empty_identifier_creation_disabled_value_error
    (env : Env) (dag : DAG) (task : Operator) (ldri : Option String)
    (runs : List DagRun) (store : Store) (mi : Int) (pool : Option String)
    (hempty : truthy ldri = false)
    (hdag : task.dag = some dag) (htask : task.task_id ∈ dag.task_dict) :
    _get_dag_run env dag .off ldri runs =
      (.error (.valueError "Must provide `logical_date_or_run_id` if not `create_if_necessary`."),
        runs) ∧
    _get_ti env task mi ldri pool .off store =
      (.error (.valueError "Must provide `logical_date_or_run_id` if not `create_if_necessary`."),
        store) := by
  constructor
  · unfold _get_dag_run
    simp [hempty]
  · unfold _get_ti
    rw [hdag]
    simp [htask, hempty]

/-- Witness for C8: absent identifier with creation disabled on `task0`. -/
theorem empty_identifier_creation_disabled_value_error_witness :
    _get_dag_run env0 dag0 .off none store0.runs =
      (.error (.valueError "Must provide `logical_date_or_run_id` if not `create_if_necessary`."),
        store0.runs) ∧
    _get_ti env0 task0 (-1) none none .off store0 =
      (.error (.valueError "Must provide `logical_date_or_run_id` if not `create_if_necessary`."),
        store0) :=
  empty_identifier_creation_disabled_value_error env0 dag0 task0 none store0.runs store0
    (-1) none (by decide) rfl (by decide)

/-- C9: a non-empty identifier matching no existing run (neither as a run id
nor as a parsed instant) with creation disabled fails with `DagRunNotFound`,
leaving the store unchanged. -/
theorem get_dag_run_not_found
    (env : Env) (dag : DAG) (ldri : Option String) (runs : List DagRun)
    (hv : truthy ldri = true)
    (hfetch : (fetch_dag_run_from_run_id_or_logical_date_string env.parse runs dag.dag_id
      (ldri.getD "")).1 = none) :
    _get_dag_run env dag .off ldri runs =
      (.error (.dagRunNotFound ("DagRun for " ++ dag.dag_id ++
        " with run_id or logical_date of " ++ (ldri.getD "") ++ " not found")), runs) := by
  unfold _get_dag_run
  simp [hv, hfetch]

/-- Witness for C9: `"nope"` matches nothing in the empty store. -/
theorem get_dag_run_not_found_witness :
    _get_dag_run env0 dag0 .off (some "nope") store0.runs =
      (.error (.dagRunNotFound ("DagRun for " ++ dag0.dag_id ++
        " with run_id or logical_date of " ++ "nope" ++ " not found")), store0.runs) :=
  get_dag_run_not_found env0 dag0 (some "nope") store0.runs (by decide) (by decide)

/-- C3: on a call reaching the map-index validity check (task assigned to its
dag, task id in the dag's task mapping, identifier/creation precondition met),
an expansion-capable task with `map_index < 0` fails with the "missing map
index" RuntimeError, and a non-expansion-capable task with `map_index ≥ 0`
fails with the "unexpected map index" RuntimeError; in particular
`map_index = 0` on a non-mapped task and `map_index = -1` on a mapped task
fail. -/
theorem get_ti_map_index_validation
    (env : Env) (task : Operator) (dag : DAG) (mi : Int) (ldri : Option String)
    (pool : Option String) (cin : CreateIfNecessary) (store : Store)
    (hdag : task.dag = some dag) (htask : task.task_id ∈ dag.task_dict)
    (hpre : truthy ldri = true ∨ cin ≠ .off) :
    (task.needs_expansion = true → mi < 0 →
      _get_ti env task mi ldri pool cin store =
        (.error (.runtimeError "No map_index passed to mapped task"), store)) ∧
    (task.needs_expansion = false → 0 ≤ mi →
      _get_ti env task mi ldri pool cin store =
        (.error (.runtimeError "map_index passed to non-mapped task"), store)) := by
  have hpre' : ¬ (truthy ldri = false ∧ cin = .off) := by
    rcases hpre with h | h
    · exact fun hc => by rw [h] at hc; cases hc.1
    · exact fun hc => h hc.2
  constructor
  · intro hexp hmi
    unfold _get_ti
    rw [hdag]
    simp [htask, hpre', hexp, hmi]
  · intro hexp hmi
    unfold _get_ti
    rw [hdag]
    simp [htask, hpre', hexp, hmi, not_lt.mpr hmi]

/-- Witness for C3: `map_index = 0` on the non-mapped `task0` and
`map_index = -1` on the mapped `task0m` both fail with RuntimeError. -/
theorem get_ti_map_index_validation_witness :
    _get_ti env0 task0 0 (some "r1") none .off store1 =
      (.error (.runtimeError "map_index passed to non-mapped task"), store1) ∧
    _get_ti env0 task0m (-1) (some "r1") none .off store1 =
      (.error (.runtimeError "No map_index passed to mapped task"), store1) :=
  ⟨(get_ti_map_index_validation env0 task0 dag0 0 (some "r1") none .off store1
      rfl (by decide) (Or.inl (by decide))).2 rfl (by decide),
   (get_ti_map_index_validation env0 task0m dag0 (-1) (some "r1") none .off store1
      rfl (by decide) (Or.inl (by decide))).1 rfl (by decide)⟩

/-- C10: the map-index check precedes run resolution, so a map-index
RuntimeError is atomic with respect to the store: `_get_ti` returns with the
store exactly as it was given, under every creation mode including `db`. -/
theorem get_ti_map_index_error_store_unchanged
    (env : Env) (task : Operator) (dag : DAG) (mi : Int) (ldri : Option String)
    (pool : Option String) (cin : CreateIfNecessary) (store : Store)
    (hdag : task.dag = some dag) (htask : task.task_id ∈ dag.task_dict)
    (hpre : truthy ldri = true ∨ cin ≠ .off)
    (hmm : task.needs_expansion = true ∧ mi < 0 ∨ task.needs_expansion = false ∧ 0 ≤ mi) :
    ∃ msg, _get_ti env task mi ldri pool cin store = (.error (.runtimeError msg), store) := by
  have hpre' : ¬ (truthy ldri = false ∧ cin = .off) := by
    rcases hpre with h | h
    · exact fun hc => by rw [h] at hc; cases hc.1
    · exact fun hc => h hc.2
  rcases hmm with ⟨hexp, hmi⟩ | ⟨hexp, hmi⟩
  · exact ⟨"No map_index passed to mapped task",
      by unfold _get_ti; rw [hdag]; simp [htask, hpre', hexp, hmi]⟩
  · exact ⟨"map_index passed to non-mapped task",
      by unfold _get_ti; rw [hdag]; simp [htask, hpre', hexp, hmi, not_lt.mpr hmi]⟩

/-- Witness for C10: the map-index failure under creation mode `db` leaves
the store untouched. -/
theorem get_ti_map_index_error_store_unchanged_witness :
    ∃ msg, _get_ti env0 task0 0 none none .db store1 =
      (.error (.runtimeError msg), store1) :=
  get_ti_map_index_error_store_unchanged env0 task0 dag0 0 none none .db store1
    rfl (by decide) (Or.inr (by decide)) (Or.inr ⟨rfl, by decide⟩)

/-- Counterexample for C4: in `memory` creation mode with the identifier
absent, the constructed run's identifier is `none` — the raw input passed
through — not a generated temporary identifier. -/
theorem get_dag_run_memory_absent_identifier_counterexample :
    (_get_dag_run env0 dag0 .memory none []).1 =
      .ok ({ dag_id := "d", run_id := none, run_type := .manual, logical_date := none,
             data_interval := none, run_after := 5, triggered_by := .cli,
             triggering_user_name := some "u", state := .running }, true) ∧
    (none : Option String) ≠ some (_generate_temporary_run_id env0.iso env0.now) := by
  exact ⟨rfl, by simp⟩

/-- C4 (amended): in `memory` creation mode with no existing run matching,
the run record is constructed entirely in memory with `created=true`, its
run identifier is the supplied input string passed through verbatim (absent
when the input was absent, rather than a generated temporary identifier),
its state is Running, and the run store is never touched. -/
theorem get_dag_run_memory_creation
    (env : Env) (dag : DAG) (ldri : Option String) (runs : List DagRun)
    (hnf : truthy ldri = true →
      (fetch_dag_run_from_run_id_or_logical_date_string env.parse runs dag.dag_id
        (ldri.getD "")).1 = none) :
    ∃ run : DagRun, _get_dag_run env dag .memory ldri runs = (.ok (run, true), runs) ∧
      run.run_id = ldri ∧ run.state = .running := by
  unfold _get_dag_run
  rcases hv : truthy ldri with _ | _
  · simp [hv]
  · simp [hv, hnf hv]

/-- Witness for C4 (amended): a parseable-looking identifier that matches no
run in the empty store is used verbatim as the in-memory run's id. -/
theorem get_dag_run_memory_creation_witness :
    ∃ run : DagRun, _get_dag_run env0 dag0 .memory (some "2024-01-01") [] =
      (.ok (run, true), []) ∧ run.run_id = some "2024-01-01" ∧ run.state = .running :=
  get_dag_run_memory_creation env0 dag0 (some "2024-01-01") [] (fun _ => by decide)

/-- Counterexample for C5: invoking `task_test` with no environment
overrides completes the task body successfully, yet the process environment
is left untouched — the `AIRFLOW_TEST_MODE` marker is never merged, because
`os.environ.update` sits inside the `if args.env_vars:` branch. -/
theorem task_test_env_marker_counterexample :
    (task_test env0 task0 args0 (fun _ => .ok (some .success)) proc0 store0).1 = .ok () ∧
    (task_test env0 task0 args0 (fun _ => .ok (some .success)) proc0 store0).2.1.environ
      = [] :=
  ⟨rfl, rfl⟩

/-- C5 (amended): the `TEST_MODE=true` marker together with the supplied
overrides is merged into the process environment only when the caller
supplied a non-empty override mapping; with no overrides the process
environment is left unchanged and the marker is not set. -/
theorem task_test_environ_update
    (env : Env) (task : Operator) (args : TaskTestArgs)
    (body : TaskInstance → Except String (Option TIState))
    (proc : ProcState) (store : Store) :
    (task_test env task args body proc store).2.1.environ =
      if truthyMap args.env_vars then
        dictUpdate proc.environ
          (dictUpdate [("AIRFLOW_TEST_MODE", "True")] (args.env_vars.getD []))
      else proc.environ := by
  unfold task_test
  rcases h : truthyMap args.env_vars with _ | _ <;>
    simp only [h, Bool.false_eq_true, if_false, if_true, ite_true, ite_false] <;>
    split <;>
    first
      | rfl
      | (split <;> simp_all <;> split <;> simp_all)

/-- C7: with creation allowed and the identifier resolving to the same
existing run, calling `_get_ti` twice with the same (run, task, map_index)
yields the same task-instance record on the second call: the first call
creates and stores the record, the second finds that very record instead of
creating a duplicate, and the store is left with exactly one instance for
the (run, task, map-index) key. -/
theorem get_ti_bind_idempotent
    (env : Env) (task : Operator) (dag : DAG) (mi : Int) (ldri : Option String)
    (pool : Option String) (cin : CreateIfNecessary) (store : Store) (run : DagRun) (v : Nat)
    (hdag : task.dag = some dag)
    (htask : task.task_id ∈ dag.task_dict)
    (hexp1 : task.needs_expansion = true → 0 ≤ mi)
    (hexp2 : task.needs_expansion = false → mi < 0)
    (hcreate : cin ≠ .off)
    (hv : truthy ldri = true)
    (hfetch : (fetch_dag_run_from_run_id_or_logical_date_string env.parse store.runs dag.dag_id
      (ldri.getD "")).1 = some run)
    (hti : get_task_instance store.tis dag.dag_id run.run_id task.task_id mi = none)
    (hversion : get_latest_version store.dag_versions dag.dag_id = some v) :
    ∃ ti1,
      _get_ti env task mi ldri pool cin store =
        (.ok (ti1, false), { store with tis := ti1 :: store.tis }) ∧
      _get_ti env task mi ldri pool cin { store with tis := ti1 :: store.tis } =
        (.ok (ti1, false), { store with tis := ti1 :: store.tis }) := by
  have hpre : ¬ (truthy ldri = false ∧ cin = .off) := fun hc => by rw [hv] at hc; cases hc.1
  have hg1 : ¬ (task.needs_expansion = true ∧ mi < 0) :=
    fun hc => absurd (hexp1 hc.1) (not_le.mpr hc.2)
  have hg2 : ¬ (task.needs_expansion = false ∧ 0 ≤ mi) :=
    fun hc => absurd hc.2 (not_le.mpr (hexp2 hc.1))
  have hrun : _get_dag_run env dag cin ldri store.runs = (.ok (run, false), store.runs) :=
    get_dag_run_found_eq env dag cin ldri store.runs run hv hfetch
  have hmem : run ∈ store.runs :=
    fetch_mem env.parse store.runs dag.dag_id (ldri.getD "") run hfetch
  set ti1 : TaskInstance :=
    refresh_from_task (refresh_from_task (newTaskInstance dag task run mi v) task pool)
      task pool with hti1
  have hidem : refresh_from_task (refresh_from_task ti1 task pool) task pool = ti1 := by
    rw [hti1, refresh_from_task_idem, refresh_from_task_idem]
  refine ⟨ti1, ?_, ?_⟩
  · exact get_ti_create_eq env task dag mi ldri pool cin store run false store.runs v
      hdag htask hpre hg1 hg2 hrun hti hcreate hversion hmem
  · have hfound : get_task_instance (ti1 :: store.tis) dag.dag_id run.run_id task.task_id mi =
        some ti1 := by
      unfold get_task_instance
      rw [List.find?_cons_of_pos]
      simp [hti1, refresh_from_task, newTaskInstance]
    have h2 := get_ti_found_eq env task dag mi ldri pool cin
      { store with tis := ti1 :: store.tis } run false store.runs ti1
      hdag htask hpre hg1 hg2 hrun hfound
    have hkeyne : ∀ t ∈ store.tis, ¬ tiKey t = tiKey ti1 := by
      intro t ht hkey
      have hnot := List.find?_eq_none.mp hti t ht
      simp only [decide_eq_true_eq, not_and] at hnot
      rw [hti1] at hkey
      simp only [tiKey, refresh_from_task, newTaskInstance, Prod.mk.injEq] at hkey
      exact absurd hkey.2.2.2 ((hnot hkey.1) hkey.2.1 hkey.2.2.1)
    have htail : store.tis.map (fun t => if tiKey t = tiKey ti1 then ti1 else t) = store.tis := by
      have h3 : store.tis.map (fun t => if tiKey t = tiKey ti1 then ti1 else t) =
          store.tis.map id :=
        List.map_congr_left (fun t ht => by simp [hkeyne t ht])
      simpa using h3
    rw [h2, hidem]
    dsimp only
    simp only [List.map_cons, ite_self, htail]

/-- C1: `task_test` on a non-mapped task with `map_index = -1`, no
identifier and empty overrides first creates a transient durable run (the
`_get_ti` call it performs before the task body returns the store holding
the generated-identifier run), and after `task_test` returns — whatever the
task body does, success or raise — the run store is back to its original
contents: the guaranteed cleanup step has deleted the transient run. -/
theorem task_test_transient_run_cleanup
    (env : Env) (task : Operator) (dag : DAG) (args : TaskTestArgs)
    (body : TaskInstance → Except String (Option TIState))
    (proc : ProcState) (store : Store) (v : Nat)
    (hdag : task.dag = some dag)
    (htask : task.task_id ∈ dag.task_dict)
    (hexp : task.needs_expansion = false)
    (hmi : args.map_index = -1)
    (hldri : args.logical_date_or_run_id = none)
    (henv : args.env_vars = none)
    (hparams : args.task_params = none)
    (hvalid : env.params_validate task.params = .ok ())
    (hversion : get_latest_version store.dag_versions dag.dag_id = some v)
    (hfresh : findRunById store.runs dag.dag_id
      (_generate_temporary_run_id env.iso env.now) = none)
    (hti : get_task_instance store.tis dag.dag_id
      (some (_generate_temporary_run_id env.iso env.now)) task.task_id args.map_index = none) :
    ∃ ti run,
      _get_ti env task args.map_index args.logical_date_or_run_id none .db store =
        (.ok (ti, true), { store with runs := run :: store.runs, tis := ti :: store.tis }) ∧
      run.run_id = some (_generate_temporary_run_id env.iso env.now) ∧
      ti.dag_run = some run ∧
      (task_test env task args body proc store).2.2.runs = store.runs := by
  have hpre : ¬ (truthy args.logical_date_or_run_id = false ∧ CreateIfNecessary.db = .off) :=
    fun hc => CreateIfNecessary.noConfusion hc.2
  have hg1 : ¬ (task.needs_expansion = true ∧ args.map_index < 0) := by
    rw [hexp]; exact fun hc => Bool.noConfusion hc.1
  have hg2 : ¬ (task.needs_expansion = false ∧ 0 ≤ args.map_index) := by
    rw [hmi]; exact fun hc => absurd hc.2 (by decide)
  have hdb : _get_dag_run env dag .db args.logical_date_or_run_id store.runs =
      (.ok ({ dag_id := dag.dag_id,
              run_id := some (_generate_temporary_run_id env.iso env.now),
              run_type := .manual, logical_date := none, data_interval := none,
              run_after := env.now, triggered_by := .cli,
              triggering_user_name := env.getuser, state := .queued }, true),
       { dag_id := dag.dag_id,
         run_id := some (_generate_temporary_run_id env.iso env.now),
         run_type := .manual, logical_date := none, data_interval := none,
         run_after := env.now, triggered_by := .cli,
         triggering_user_name := env.getuser, state := .queued } :: store.runs) := by
    rw [hldri]
    exact get_dag_run_db_create_eq env dag store.runs hfresh
  have hget := get_ti_create_eq env task dag args.map_index args.logical_date_or_run_id none
    .db store
    { dag_id := dag.dag_id,
      run_id := some (_generate_temporary_run_id env.iso env.now),
      run_type := .manual, logical_date := none, data_interval := none,
      run_after := env.now, triggered_by := .cli,
      triggering_user_name := env.getuser, state := .queued }
    true
    ({ dag_id := dag.dag_id,
       run_id := some (_generate_temporary_run_id env.iso env.now),
       run_type := .manual, logical_date := none, data_interval := none,
       run_after := env.now, triggered_by := .cli,
       triggering_user_name := env.getuser, state := .queued } :: store.runs)
    v hdag htask hpre hg1 hg2 hdb hti (fun hc => CreateIfNecessary.noConfusion hc) hversion
    (List.mem_cons_self _ _)
  refine ⟨_, _, hget, rfl, rfl, ?_⟩
  unfold task_test
  rw [henv, hparams]
  dsimp only [truthyMap]
  have hval : (if ¬ List.isEmpty task.params = true then env.params_validate task.params
      else .ok ()) = .ok () := by
    rcases h : task.params.isEmpty with _ | _ <;> simp [hvalid]
  simp only [Bool.false_eq_true, if_false, ite_false]
  rw [hval]
  dsimp only
  rw [hget]
  dsimp only
  rw [if_pos rfl]
  dsimp only [refresh_from_task, newTaskInstance]
  rw [deleteRun_cons_fresh _ _ (_generate_temporary_run_id env.iso env.now) rfl hfresh]

/-- Witness for C7: binding `task0` twice against the pre-existing `run0`
with creation allowed returns the identical record the second time. -/
theorem get_ti_bind_idempotent_witness :
    ∃ ti1,
      _get_ti env0 task0 (-1) (some "r1") none .db store1 =
        (.ok (ti1, false), { store1 with tis := ti1 :: store1.tis }) ∧
      _get_ti env0 task0 (-1) (some "r1") none .db { store1 with tis := ti1 :: store1.tis } =
        (.ok (ti1, false), { store1 with tis := ti1 :: store1.tis }) :=
  get_ti_bind_idempotent env0 task0 dag0 (-1) (some "r1") none .db store1 run0 1
    rfl (by decide) (fun h => Bool.noConfusion h) (fun _ => by decide) (by decide)
    (by decide) rfl rfl rfl

/-- Witness for C1: a failing task body on `task0` still leaves the store's
runs exactly as they were, the transient run having existed between the
`_get_ti` call and cleanup. -/
theorem task_test_transient_run_cleanup_witness :
    ∃ ti run,
      _get_ti env0 task0 args0.map_index args0.logical_date_or_run_id none .db store0 =
        (.ok (ti, true), { store0 with runs := run :: store0.runs, tis := ti :: store0.tis }) ∧
      run.run_id = some (_generate_temporary_run_id env0.iso env0.now) ∧
      ti.dag_run = some run ∧
      (task_test env0 task0 args0 (fun _ => .error "boom") proc0 store0).2.2.runs =
        store0.runs :=
  task_test_transient_run_cleanup env0 task0 dag0 args0 (fun _ => .error "boom") proc0 store0 1
    rfl (by decide) rfl rfl rfl rfl rfl rfl rfl rfl rfl

end TaskCommand
